import Mathlib

/-!
Shallow embedding of the trading-signal engine in `src/app.py` (a Streamlit
script built on pandas / pandas_ta), together with proofs about the claims of
its specification.

Modelling conventions:
* A bar series is a structure `Df` holding a length `n` and four total
  functions `ℕ → ℚ` for the Open / High / Low / Close columns (the script never
  reads Volume in its logic).  Exact rationals stand for the floats.
* A derived pandas column that can hold NaN is modelled as `ℕ → Option ℚ`,
  `none` standing for NaN.  Pandas comparisons involving NaN are `False`;
  the boolean comparison helpers below return `false` whenever a side is
  `none`, and the arithmetic helpers propagate `none` the way float NaN
  propagates.
* `pandas_ta.macd` (fast 12, slow 26, signal 9) computes the fast and slow
  exponential moving averages with `ema(..., sma=True, adjust=False)`: NaN
  before index `length - 1`, the simple average of the first `length` closes
  at index `length - 1`, then the `adjust=False` recursion with
  `alpha = 2 / (length + 1)`.  The signal line is the same EMA applied to the
  MACD line restarted at its first valid index (25), hence NaN before
  index 33.
* `pandas_ta.rsi(length=14)` feeds the clipped positive / negative close
  deltas through `rma`, i.e. `ewm(alpha = 1/14, min_periods = 14)` with the
  pandas default `adjust=True`: a weighted mean with weights `(1-alpha)^(t-i)`
  over all deltas seen so far (the delta at index 0 is NaN and is skipped),
  NaN until 14 deltas have been seen.  A zero denominator (float 0/0) is NaN.
-/

set_option maxHeartbeats 1000000

/-- Pandas semantics of `a <= b` on possibly-NaN values: any comparison with
NaN is `False`. -/
def oleB : Option ℚ → Option ℚ → Bool
  | some a, some b => decide (a ≤ b)
  | _, _ => false

/-- Pandas semantics of `a < b` on possibly-NaN values. -/
def oltB : Option ℚ → Option ℚ → Bool
  | some a, some b => decide (a < b)
  | _, _ => false

/-- Pandas semantics of `a > b` on possibly-NaN values. -/
def ogtB : Option ℚ → Option ℚ → Bool
  | some a, some b => decide (b < a)
  | _, _ => false

/-- Pandas semantics of `a >= b` on possibly-NaN values. -/
def ogeB : Option ℚ → Option ℚ → Bool
  | some a, some b => decide (b ≤ a)
  | _, _ => false

/-- Multiplication of a possibly-NaN value by a constant (NaN propagates). -/
def omul (o : Option ℚ) (c : ℚ) : Option ℚ := o.map (fun a => a * c)

/-- Subtraction of possibly-NaN values (NaN propagates). -/
def osub : Option ℚ → Option ℚ → Option ℚ
  | some a, some b => some (a - b)
  | _, _ => none

/-- Division of possibly-NaN values (NaN propagates). -/
def odiv : Option ℚ → Option ℚ → Option ℚ
  | some a, some b => some (a / b)
  | _, _ => none

/-- `Series.shift(1)`: the previous bar value, NaN at the first bar. -/
def shift1 (f : ℕ → Option ℚ) (t : ℕ) : Option ℚ :=
  if t = 0 then none else f (t - 1)

/-- Simple average of the first `L` values of `x` (the EMA seed used by
`pandas_ta.ema` with `sma=True`). -/
def smaFirst (x : ℕ → ℚ) (L : ℕ) : ℚ :=
  (((List.range L).map x).sum) / (L : ℚ)

/-- The `adjust=False` exponential-smoothing recursion of `Series.ewm`:
`seed` sits at absolute index `s`, and the value at index `s + k` follows by
`y = (1 - a) * y_prev + a * x`. -/
def ewmAdjFalse (a : ℚ) (x : ℕ → ℚ) (s : ℕ) (seed : ℚ) : ℕ → ℚ
  | 0 => seed
  | k + 1 => (1 - a) * ewmAdjFalse a x s seed k + a * x (s + (k + 1))

/-- `pandas_ta.ema(x, length=L)` (defaults `sma=True`, `adjust=False`) of a
fully defined series `x`: NaN before index `L - 1`, the simple average of the
first `L` values at index `L - 1`, then the recursion with
`alpha = 2 / (L + 1)`. -/
def emaSma (L : ℕ) (x : ℕ → ℚ) (t : ℕ) : Option ℚ :=
  if t + 1 < L then none
  else some (ewmAdjFalse (2 / ((L : ℚ) + 1)) x (L - 1) (smaFirst x L) (t - (L - 1)))

/-- The MACD line of `ta.macd(close)`: fast EMA(12) minus slow EMA(26), NaN
while either side is (i.e. before index 25). -/
def macdLine (close : ℕ → ℚ) (t : ℕ) : Option ℚ :=
  osub (emaSma 12 close t) (emaSma 26 close t)

/-- The defined values of the MACD line, re-indexed from its first valid
index 25: `macdVal close k` is the MACD value at absolute bar `25 + k`. -/
def macdVal (close : ℕ → ℚ) (k : ℕ) : ℚ :=
  ewmAdjFalse (2 / 13) close 11 (smaFirst close 12) (k + 14) -
    ewmAdjFalse (2 / 27) close 25 (smaFirst close 26) k

/-- The MACD signal line: `ta.macd` applies the same seeded EMA (length 9) to
the MACD line restarted at its first valid index, so the signal is NaN before
absolute index 33. -/
def macdSignal (close : ℕ → ℚ) (t : ℕ) : Option ℚ :=
  if t < 25 then none else emaSma 9 (macdVal close) (t - 25)

/-- The MACD histogram: line minus signal (NaN propagates). -/
def macdHist (close : ℕ → ℚ) (t : ℕ) : Option ℚ :=
  osub (macdLine close t) (macdSignal close t)

/-- The positive part of the close delta (`positive[positive < 0] = 0` in
`pandas_ta.rsi`); only used at indices `i ≥ 1`. -/
def posDelta (close : ℕ → ℚ) (i : ℕ) : ℚ :=
  if close i - close (i - 1) < 0 then 0 else close i - close (i - 1)

/-- The negative part of the close delta (`negative[negative > 0] = 0`). -/
def negDelta (close : ℕ → ℚ) (i : ℕ) : ℚ :=
  if 0 < close i - close (i - 1) then 0 else close i - close (i - 1)

/-- Weighted numerator of the `adjust=True` `ewm` mean over the delta series
(whose index-0 entry is NaN and hence skipped): at `t` this is
`Σ_{i=1}^{t} (1-a)^(t-i) * x i`. -/
def ewmNum (a : ℚ) (x : ℕ → ℚ) : ℕ → ℚ
  | 0 => 0
  | t + 1 => (1 - a) * ewmNum a x t + x (t + 1)

/-- Weighted denominator of the `adjust=True` `ewm` mean:
`Σ_{i=1}^{t} (1-a)^(t-i)`. -/
def ewmDen (a : ℚ) : ℕ → ℚ
  | 0 => 0
  | t + 1 => (1 - a) * ewmDen a t + 1

/-- `pandas_ta.rsi(close, length=14)`: `100 * p / (p + |m|)` where `p` and `m`
are the `rma` (ewm with `alpha = 1/14`, `min_periods = 14`, `adjust=True`)
averages of the positive and negative deltas; NaN during the first 14 bars and
when the float division degenerates to `0/0`. -/
def rsi (close : ℕ → ℚ) (t : ℕ) : Option ℚ :=
  if t < 14 then none
  else
    let p := ewmNum (1 / 14) (posDelta close) t / ewmDen (1 / 14) t
    let m := |ewmNum (1 / 14) (negDelta close) t / ewmDen (1 / 14) t|
    if p + m = 0 then none else some (100 * p / (p + m))

/-- `Series.rolling(window=w).min()`: NaN until the window fills, then the
minimum of the trailing `w` values. -/
def rollMin (x : ℕ → ℚ) (w t : ℕ) : Option ℚ :=
  if t + 1 < w then none
  else some (((List.range w).map (fun j => x (t - j))).foldr min (x t))

/-- `Series.rolling(window=w).max()`: NaN until the window fills, then the
maximum of the trailing `w` values. -/
def rollMax (x : ℕ → ℚ) (w t : ℕ) : Option ℚ :=
  if t + 1 < w then none
  else some (((List.range w).map (fun j => x (t - j))).foldr max (x t))

/-- `df["Support"] = df["Low"].rolling(window=20).min()`. -/
def support (low : ℕ → ℚ) (t : ℕ) : Option ℚ := rollMin low 20 t

/-- `df["Resistance"] = df["High"].rolling(window=20).max()`. -/
def resistance (high : ℕ → ℚ) (t : ℕ) : Option ℚ := rollMax high 20 t

/-- `df["Body"] = abs(df["Close"] - df["Open"])`. -/
def body (op close : ℕ → ℚ) (t : ℕ) : ℚ := |close t - op t|

/-- `df["Upper_Wick"] = df["High"] - df[["Open", "Close"]].max(axis=1)`. -/
def upperWick (op high close : ℕ → ℚ) (t : ℕ) : ℚ :=
  high t - max (op t) (close t)

/-- `df["Is_Rejection"] = (Upper_Wick > Body * 1.5) & (High >= Resistance * 0.99)`. -/
def isRejection (op high close : ℕ → ℚ) (t : ℕ) : Bool :=
  decide (body op close t * (3 / 2) < upperWick op high close t) &&
    ogeB (some (high t)) (omul (resistance high t) (99 / 100))

/-- `cond_buy_price = df["Low"] <= (df["Support"] * 1.02)`. -/
def cond_buy_price (low : ℕ → ℚ) (t : ℕ) : Bool :=
  oleB (some (low t)) (omul (support low t) (102 / 100))

/-- `cond_buy_rsi = (df["RSI"] < 45) & (df["RSI"] > df["RSI"].shift(1))`. -/
def cond_buy_rsi (close : ℕ → ℚ) (t : ℕ) : Bool :=
  oltB (rsi close t) (some 45) && ogtB (rsi close t) (shift1 (rsi close) t)

/-- `cond_buy_macd = (df[m_line] > df[m_signal]) &
(df[m_line].shift(1) <= df[m_signal].shift(1))`. -/
def cond_buy_macd (close : ℕ → ℚ) (t : ℕ) : Bool :=
  ogtB (macdLine close t) (macdSignal close t) &&
    oleB (shift1 (macdLine close) t) (shift1 (macdSignal close) t)

/-- `df["Final_Buy"] = cond_buy_price & cond_buy_rsi & cond_buy_macd`. -/
def Final_Buy (low close : ℕ → ℚ) (t : ℕ) : Bool :=
  cond_buy_price low t && cond_buy_rsi close t && cond_buy_macd close t

/-- A bar series: `n` rows of the Open / High / Low / Close columns (`op`
stands for the Open column since `open` is reserved). -/
structure Df where
  n : ℕ
  op : ℕ → ℚ
  high : ℕ → ℚ
  low : ℕ → ℚ
  close : ℕ → ℚ

/-- `has_buy_signal = df["Final_Buy"].any()`. -/
def has_buy_signal (df : Df) : Bool :=
  (List.range df.n).any (fun t => Final_Buy df.low df.close t)

/-- `last_buy_idx = df[df["Final_Buy"]].index[-1]` (chart step, line 72):
the index of the last row whose `Final_Buy` is set, if any. -/
def last_buy_idx (df : Df) : Option ℕ :=
  ((List.range df.n).filter (fun t => Final_Buy df.low df.close t)).getLast?

/-- `entry_price = float(last_buy_df.loc[last_buy_idx, "Close"])` (line 73). -/
def entry_price (df : Df) : Option ℚ :=
  (last_buy_idx df).map df.close

/-- `sl_price = float(last_buy_df.loc[last_buy_idx, "Support"] * (1 - sl_buffer))`
(line 74). -/
def sl_price (df : Df) (b : ℚ) : Option ℚ :=
  (last_buy_idx df).bind (fun t => omul (support df.low t) (1 - b))

/-- `tp_price = float(last_buy_df.loc[last_buy_idx, "Resistance"])` (line 75). -/
def tp_price (df : Df) : Option ℚ :=
  (last_buy_idx df).bind (fun t => resistance df.high t)

/-- The fields of a dataframe row that the dashboard (lines 125-128) reads. -/
structure Row where
  idx : ℕ
  rClose : ℚ
  rSupport : Option ℚ
  rResistance : Option ℚ
  rFinalBuy : Bool
deriving DecidableEq

/-- The row of `df` at index `t`, restricted to the dashboard fields. -/
def mkRow (df : Df) (t : ℕ) : Row :=
  Row.mk t (df.close t) (support df.low t) (resistance df.high t)
    (Final_Buy df.low df.close t)

/-- `df[df["Final_Buy"]]`: the rows whose `Final_Buy` is set. -/
def buyRows (df : Df) : List Row :=
  ((List.range df.n).map (mkRow df)).filter (fun r => r.rFinalBuy)

/-- `df[df["Final_Buy"]].iloc[-1]` (dashboard step, line 125). -/
def lastBuyRow (df : Df) : Option Row :=
  (buyRows df).getLast?

/-- The outcome of the Risk Control dashboard column (lines 123-143): either a
trade plan (entry, take profit, stop loss, risk:reward) or the explicit
no-signal message. -/
inductive RiskOut where
  | plan (entry : ℚ) (tp sl rr : Option ℚ) : RiskOut
  | noSignal : RiskOut
deriving DecidableEq

/-- `risk = entry - sl; reward = tp - entry; rr = reward / risk if risk > 0
else 0` (lines 131-133), with float-NaN modelled by `none`. -/
def rrOf (entry : ℚ) (tp sl : Option ℚ) : Option ℚ :=
  if ogtB (osub (some entry) sl) (some 0)
  then odiv (osub tp (some entry)) (osub (some entry) sl)
  else some 0

/-- The Risk Control dashboard column (lines 123-143): when `has_buy_signal`
is set it reads `entry`, `tp`, `sl` off the last `Final_Buy` row and derives
the risk:reward ratio, otherwise it shows the no-signal message. -/
def riskControl (df : Df) (b : ℚ) : RiskOut :=
  if has_buy_signal df then
    match lastBuyRow df with
    | some r =>
        RiskOut.plan r.rClose r.rResistance (omul r.rSupport (1 - b))
          (rrOf r.rClose r.rResistance (omul r.rSupport (1 - b)))
    | none => RiskOut.noSignal
  else RiskOut.noSignal

/-- `entry = float(last_buy_row["Close"])` (dashboard step, line 126). -/
def entryDash (df : Df) : Option ℚ :=
  (lastBuyRow df).map (fun r => r.rClose)

/-- `tp = float(last_buy_row["Resistance"])` (dashboard step, line 127). -/
def tpDash (df : Df) : Option ℚ :=
  (lastBuyRow df).bind (fun r => r.rResistance)

/-- `sl = float(last_buy_row["Support"] * (1 - sl_buffer))` (dashboard step,
line 128). -/
def slDash (df : Df) (b : ℚ) : Option ℚ :=
  (lastBuyRow df).bind (fun r => omul r.rSupport (1 - b))

/-- The observable outcome of one run of the script body: either the full
report (whose risk-control part we retain), or the warning of the `else`
branch at lines 145-146, which computes no indicator at all. -/
inductive AppOutput where
  | report (rc : RiskOut) : AppOutput
  | invalidDataWarning : AppOutput
deriving DecidableEq

/-- The `if df is not None and len(df) > 30` dispatch at line 35: the whole
pipeline runs only when the series has more than 30 rows, otherwise the
script emits the warning and computes nothing. -/
def appMain (df : Df) (b : ℚ) : AppOutput :=
  if 30 < df.n then AppOutput.report (riskControl df b) else AppOutput.invalidDataWarning

/-- The derived columns the script ever assigns on `df` (lines 38-58), in
assignment order: the three `ta.macd` columns, RSI, Support, Resistance, the
candle metrics and the single boolean signal column `Final_Buy`. -/
def dfAddedColumns : List String :=
  ["MACD_12_26_9", "MACDh_12_26_9", "MACDs_12_26_9", "RSI", "Support",
    "Resistance", "Body", "Upper_Wick", "Is_Rejection", "Final_Buy"]

/-! ## Concrete bar series used as witnesses and counterexamples -/

-- The Batteries arithmetic on `Rat` is irreducible by default; restore
-- definitional unfolding so that `decide` can run the pipeline on explicit
-- series.
attribute [local semireducible] Rat.add Rat.mul Rat.sub Rat.inv Rat.ofScientific

set_option maxRecDepth 100000

/-- Close column of the witness series: a steady decline of 2 per bar from 200
(bars 0-33), then a bounce of +5 at bar 34. -/
def wClose (i : ℕ) : ℚ := if i ≤ 33 then 200 - 2 * (i : ℚ) else if i = 34 then 139 else 1

/-- Low column of the witness series (one below the close on the decline; the
bar-34 low revisits the prior close, keeping it within 2 percent of the
rolling support). -/
def wLow (i : ℕ) : ℚ := if i ≤ 33 then 199 - 2 * (i : ℚ) else if i = 34 then 134 else 1

/-- Open column of the witness series (red candles on the decline, a green
candle at bar 34). -/
def wOp (i : ℕ) : ℚ := if i ≤ 33 then 201 - 2 * (i : ℚ) else if i = 34 then 134 else 1

/-- High column of the witness series (always at least open and close). -/
def wHigh (i : ℕ) : ℚ := if i ≤ 33 then 202 - 2 * (i : ℚ) else if i = 34 then 140 else 1

/-- The 35-bar witness series: its one `Final_Buy` bar is bar 34. -/
def dfW : Df := Df.mk 35 wOp wHigh wLow wClose

/-- A three-bar prefix of the witness series: too short for any indicator, so
it has no `Final_Buy` bar at all. -/
def df3 : Df := Df.mk 3 wOp wHigh wLow wClose

/-- A ten-bar prefix of the witness series, for the insufficient-data claim. -/
def df10 : Df := Df.mk 10 wOp wHigh wLow wClose

/-- Close column of the U-shaped series: a decline of 2 per bar to bar 25,
then a rise of 3 per bar.  On this series the MACD line is strictly above the
signal line from the very first bar (33) at which the signal line is defined,
so the maximal run of `macd_line > macd_signal` starting at bar 33 contains no
golden-cross bar. -/
def uClose (i : ℕ) : ℚ := if i ≤ 25 then 200 - 2 * (i : ℚ) else 150 + 3 * ((i : ℚ) - 25)

/-- A series that agrees with the witness series on bars 0-2 and differs
everywhere after, for the causality claim. -/
def vClose (i : ℕ) : ℚ := if i ≤ 2 then wClose i else 7

/-- Low column agreeing with the witness series on bars 0-2 only. -/
def vLow (i : ℕ) : ℚ := if i ≤ 2 then wLow i else 5

/-- Open column agreeing with the witness series on bars 0-2 only. -/
def vOp (i : ℕ) : ℚ := if i ≤ 2 then wOp i else 6

/-- High column agreeing with the witness series on bars 0-2 only. -/
def vHigh (i : ℕ) : ℚ := if i ≤ 2 then wHigh i else 9

/-! ## Semantics of the NaN-aware comparisons -/

/-- `oleB` is true exactly on defined values in the ≤ relation. -/
theorem oleB_eq_true (x y : Option ℚ) :
    oleB x y = true ↔ ∃ a b, x = some a ∧ y = some b ∧ a ≤ b := by
  cases x <;> cases y <;> simp [oleB]

/-- `oltB` is true exactly on defined values in the < relation. -/
theorem oltB_eq_true (x y : Option ℚ) :
    oltB x y = true ↔ ∃ a b, x = some a ∧ y = some b ∧ a < b := by
  cases x <;> cases y <;> simp [oltB]

/-- `ogtB` is true exactly on defined values in the reversed < relation. -/
theorem ogtB_eq_true (x y : Option ℚ) :
    ogtB x y = true ↔ ∃ a b, x = some a ∧ y = some b ∧ b < a := by
  cases x <;> cases y <;> simp [ogtB]

/-- A comparison with NaN on the left is false. -/
theorem oleB_none_left (y : Option ℚ) : oleB none y = false := by cases y <;> rfl

/-- A comparison with NaN on the right is false. -/
theorem oleB_none_right (x : Option ℚ) : oleB x none = false := by cases x <;> rfl

/-- A comparison with NaN on the left is false. -/
theorem oltB_none_left (y : Option ℚ) : oltB none y = false := by cases y <;> rfl

/-- A comparison with NaN on the right is false. -/
theorem oltB_none_right (x : Option ℚ) : oltB x none = false := by cases x <;> rfl

/-- A comparison with NaN on the left is false. -/
theorem ogtB_none_left (y : Option ℚ) : ogtB none y = false := by cases y <;> rfl

/-- A comparison with NaN on the right is false. -/
theorem ogtB_none_right (x : Option ℚ) : ogtB x none = false := by cases x <;> rfl

/-! ## C1: the confluence buy rule -/

/-- The price condition holds exactly when the support is defined and the low
is within 2 percent above it. -/
theorem cond_buy_price_iff (low : ℕ → ℚ) (t : ℕ) :
    cond_buy_price low t = true ↔
      ∃ s, support low t = some s ∧ low t ≤ s * (1 + 2 / 100) := by
  have h102 : (102 / 100 : ℚ) = 1 + 2 / 100 := by norm_num
  unfold cond_buy_price
  cases h : support low t with
  | none => simp [omul, oleB, h]
  | some s => simp [omul, oleB, h, h102]

/-- The RSI condition holds exactly when both the current and previous RSI are
defined, the current one is below 45 and strictly above the previous one. -/
theorem cond_buy_rsi_iff (close : ℕ → ℚ) (t : ℕ) :
    cond_buy_rsi close t = true ↔
      ∃ r rp, rsi close t = some r ∧ shift1 (rsi close) t = some rp ∧
        r < 45 ∧ rp < r := by
  unfold cond_buy_rsi
  cases h1 : rsi close t with
  | none => simp [oltB, h1]
  | some r =>
    cases h2 : shift1 (rsi close) t with
    | none => simp [oltB, ogtB, h1, h2]
    | some rp => simp [oltB, ogtB, h1, h2]

/-- The MACD condition holds exactly when all four compared values are
defined, with the line above the signal now and not above on the prior bar. -/
theorem cond_buy_macd_iff (close : ℕ → ℚ) (t : ℕ) :
    cond_buy_macd close t = true ↔
      ∃ l sg lp sp, macdLine close t = some l ∧ macdSignal close t = some sg ∧
        shift1 (macdLine close) t = some lp ∧ shift1 (macdSignal close) t = some sp ∧
        sg < l ∧ lp ≤ sp := by
  unfold cond_buy_macd
  cases h1 : macdLine close t with
  | none => simp [ogtB, h1]
  | some l =>
    cases h2 : macdSignal close t with
    | none => simp [ogtB, h2]
    | some sg =>
      cases h3 : shift1 (macdLine close) t with
      | none => simp [ogtB, oleB, h1, h2, h3]
      | some lp =>
        cases h4 : shift1 (macdSignal close) t with
        | none => simp [ogtB, oleB, h1, h2, h3, h4]
        | some sp =>
          simp only [h1, h2, h3, h4, ogtB, oleB, Bool.and_eq_true, decide_eq_true_eq,
            Option.some.injEq]
          constructor
          · rintro ⟨hlt, hle⟩
            exact ⟨l, sg, lp, sp, rfl, rfl, rfl, rfl, hlt, hle⟩
          · rintro ⟨a, b, c, d, ha, hb, hc, hd, hlt, hle⟩
            subst ha hb hc hd
            exact ⟨hlt, hle⟩

/-- Claim C1: in confluence mode, `Final_Buy[t]` is true if and only if, on
the same bar, (1) `low[t] <= support[t] * (1 + near_pct)` with
`near_pct = 0.02`, (2) `rsi[t] < 45` and `rsi[t] > rsi[t-1]`, and (3) the
MACD golden cross `macd_line[t] > macd_signal[t]` with
`macd_line[t-1] <= macd_signal[t-1]` — all comparisons requiring the compared
values to be defined. -/
theorem c1_final_buy_iff (low close : ℕ → ℚ) (t : ℕ) :
    Final_Buy low close t = true ↔
      ((∃ s, support low t = some s ∧ low t ≤ s * (1 + 2 / 100))
        ∧ (∃ r rp, rsi close t = some r ∧ shift1 (rsi close) t = some rp ∧
            r < 45 ∧ rp < r)
        ∧ (∃ l sg lp sp, macdLine close t = some l ∧ macdSignal close t = some sg ∧
            shift1 (macdLine close) t = some lp ∧ shift1 (macdSignal close) t = some sp ∧
            sg < l ∧ lp ≤ sp)) := by
  unfold Final_Buy
  simp only [Bool.and_eq_true, cond_buy_price_iff, cond_buy_rsi_iff, cond_buy_macd_iff,
    and_assoc]

/-! ## C9: warm-up safety -/

/-- Claim C9: while any side of a comparison in the buy conditions is
undefined (NaN) — the MACD line or signal at `t` or `t-1`, the RSI at `t` or
`t-1`, or the support at `t` — that condition evaluates to false and hence
`Final_Buy[t]` is false; in particular `Final_Buy` is false at the first bar
of every series. -/
theorem c9_warmup_no_fire (low close : ℕ → ℚ) (t : ℕ) :
    ((macdLine close t = none ∨ macdSignal close t = none ∨
        shift1 (macdLine close) t = none ∨ shift1 (macdSignal close) t = none) →
      cond_buy_macd close t = false)
  ∧ ((rsi close t = none ∨ shift1 (rsi close) t = none) → cond_buy_rsi close t = false)
  ∧ (support low t = none → cond_buy_price low t = false)
  ∧ ((macdLine close t = none ∨ macdSignal close t = none ∨
        shift1 (macdLine close) t = none ∨ shift1 (macdSignal close) t = none ∨
        rsi close t = none ∨ shift1 (rsi close) t = none ∨ support low t = none) →
      Final_Buy low close t = false)
  ∧ Final_Buy low close 0 = false := by
  have hmacd : (macdLine close t = none ∨ macdSignal close t = none ∨
      shift1 (macdLine close) t = none ∨ shift1 (macdSignal close) t = none) →
      cond_buy_macd close t = false := by
    intro h
    unfold cond_buy_macd
    rcases h with h | h | h | h <;> rw [h] <;>
      simp [ogtB_none_left, ogtB_none_right, oleB_none_left, oleB_none_right]
  have hrsi : (rsi close t = none ∨ shift1 (rsi close) t = none) →
      cond_buy_rsi close t = false := by
    intro h
    unfold cond_buy_rsi
    rcases h with h | h <;> rw [h] <;>
      simp [oltB_none_left, ogtB_none_left, ogtB_none_right]
  have hprice : support low t = none → cond_buy_price low t = false := by
    intro h
    unfold cond_buy_price
    rw [h]
    simp [omul, oleB_none_right]
  refine ⟨hmacd, hrsi, hprice, ?_, ?_⟩
  · intro h
    unfold Final_Buy
    rcases h with h | h | h | h | h | h | h
    · rw [hmacd (Or.inl h)]; simp
    · rw [hmacd (Or.inr (Or.inl h))]; simp
    · rw [hmacd (Or.inr (Or.inr (Or.inl h)))]; simp
    · rw [hmacd (Or.inr (Or.inr (Or.inr h)))]; simp
    · rw [hrsi (Or.inl h)]; simp
    · rw [hrsi (Or.inr h)]; simp
    · rw [hprice h]; simp
  · unfold Final_Buy cond_buy_rsi
    have h0 : shift1 (rsi close) 0 = none := rfl
    rw [h0]
    simp [ogtB_none_right]

/-! ## Selecting the last buy row -/

/-- The last element of a filtered range is the greatest index below `n`
satisfying the predicate. -/
theorem getLast?_filter_range (p : ℕ → Bool) :
    ∀ n t, ((List.range n).filter p).getLast? = some t →
      p t = true ∧ t < n ∧ ∀ u, t < u → u < n → p u = false := by
  intro n
  induction n with
  | zero => intro t h; simp at h
  | succ n ih =>
    intro t h
    rw [List.range_succ, List.filter_append] at h
    by_cases hp : p n = true
    · rw [show List.filter p [n] = [n] by simp [hp]] at h
      rw [List.getLast?_concat] at h
      injection h with h
      subst h
      exact ⟨hp, Nat.lt_succ_self n, fun u hu1 hu2 => absurd hu1 (by omega)⟩
    · rw [show List.filter p [n] = [] by simp [hp]] at h
      rw [List.append_nil] at h
      obtain ⟨h1, h2, h3⟩ := ih t h
      refine ⟨h1, Nat.lt_succ_of_lt h2, fun u hu1 hu2 => ?_⟩
      rcases Nat.lt_succ_iff_lt_or_eq.mp hu2 with h4 | h4
      · exact h3 u hu1 h4
      · subst h4
        exact Bool.eq_false_iff.mpr hp

/-- The dashboard row filter is the chart index filter mapped through
`mkRow`. -/
theorem buyRows_eq (df : Df) :
    buyRows df =
      ((List.range df.n).filter (fun t => Final_Buy df.low df.close t)).map (mkRow df) := by
  unfold buyRows
  rw [List.filter_map]
  rfl

/-- The dashboard's last buy row is the chart's last buy index, looked up. -/
theorem lastBuyRow_eq (df : Df) :
    lastBuyRow df = (last_buy_idx df).map (mkRow df) := by
  unfold lastBuyRow last_buy_idx
  rw [buyRows_eq, List.getLast?_map]

/-! ## C6: insufficient data -/

/-- Claim C6: a bar series shorter than the largest required window produces
the distinct cannot-compute outcome, with no partially computed indicator
column of any kind — in particular any series of length 10 (the script guard
rejects everything up to 30 rows, hence everything below the slow MACD
period 26). -/
theorem c6_insufficient_data (df : Df) (b : ℚ) (h : df.n < 26) :
    appMain df b = AppOutput.invalidDataWarning := by
  unfold appMain
  rw [if_neg]
  omega

/-- Witness for C6 at a concrete series of length 10. -/
theorem c6_insufficient_data_witness :
    appMain df10 (1 / 50) = AppOutput.invalidDataWarning :=
  c6_insufficient_data df10 (1 / 50) (by decide)

/-! ## C7: empty-result trade-plan queries -/

/-- Claim C7: when no bar of the series has `Final_Buy` set, the risk-control
output is the explicit no-signal message — no entry, stop loss, take profit or
ratio is computed — and the chart-side plan values are likewise absent. -/
theorem c7_no_signal (df : Df) (b : ℚ)
    (h : ∀ t, t < df.n → Final_Buy df.low df.close t = false) :
    riskControl df b = RiskOut.noSignal ∧ has_buy_signal df = false
  ∧ entry_price df = none ∧ sl_price df b = none ∧ tp_price df = none := by
  have hany : has_buy_signal df = false := by
    unfold has_buy_signal
    simp only [List.any_eq_false]
    intro x hx
    simp [h x (List.mem_range.mp hx)]
  have hfil : (List.range df.n).filter (fun t => Final_Buy df.low df.close t) = [] := by
    rw [List.filter_eq_nil_iff]
    intro a ha
    simp [h a (List.mem_range.mp ha)]
  have hidx : last_buy_idx df = none := by
    unfold last_buy_idx
    rw [hfil]
    rfl
  refine ⟨?_, hany, ?_, ?_, ?_⟩
  · simp [riskControl, hany]
  · simp [entry_price, hidx]
  · simp [sl_price, hidx]
  · simp [tp_price, hidx]

/-- Witness for C7 at a concrete three-bar series (no indicator window fills,
so no bar qualifies). -/
theorem c7_no_signal_witness : riskControl df3 (1 / 50) = RiskOut.noSignal :=
  (c7_no_signal df3 (1 / 50) (by decide)).1

/-! ## C2: the trade plan comes from the most recent buy bar -/

/-- Claim C2: with at least one `Final_Buy` bar, the risk-control plan is
computed from the most recent `Final_Buy` bar `t`: entry is `close[t]`, take
profit is `resistance[t]`, stop loss is `support[t] * (1 - b)`, and the
risk:reward ratio is `(take_profit - entry) / (entry - stop_loss)` whenever
the risk is positive. -/
theorem c2_trade_plan (df : Df) (b : ℚ) (t : ℕ) (h : last_buy_idx df = some t) :
    Final_Buy df.low df.close t = true
  ∧ t < df.n
  ∧ (∀ u, t < u → u < df.n → Final_Buy df.low df.close u = false)
  ∧ riskControl df b =
      RiskOut.plan (df.close t) (resistance df.high t) (omul (support df.low t) (1 - b))
        (rrOf (df.close t) (resistance df.high t) (omul (support df.low t) (1 - b)))
  ∧ (∀ s r, support df.low t = some s → resistance df.high t = some r →
      0 < df.close t - s * (1 - b) →
      rrOf (df.close t) (resistance df.high t) (omul (support df.low t) (1 - b)) =
        some ((r - df.close t) / (df.close t - s * (1 - b)))) := by
  obtain ⟨h1, h2, h3⟩ := getLast?_filter_range _ df.n t h
  have hbuy : has_buy_signal df = true := by
    unfold has_buy_signal
    rw [List.any_eq_true]
    exact ⟨t, List.mem_range.mpr h2, h1⟩
  have hrow : lastBuyRow df = some (mkRow df t) := by
    rw [lastBuyRow_eq, h]
    rfl
  refine ⟨h1, h2, h3, ?_, ?_⟩
  · simp [riskControl, hbuy, hrow, mkRow]
  · intro s r hs hr hrisk
    unfold rrOf
    rw [hs, hr]
    simp [omul, osub, ogtB, odiv, hrisk]

/-! ## C3: the risk:reward computation is total and never negative -/

/-- The initial value is below a `foldr` of `max`. -/
theorem le_foldr_max (a : ℚ) (l : List ℚ) : a ≤ l.foldr max a := by
  induction l with
  | nil => exact le_refl a
  | cons b l ih => exact le_trans ih (le_max_right b _)

/-- A defined rolling maximum dominates the current value. -/
theorem self_le_rollMax (x : ℕ → ℚ) (w t : ℕ) (r : ℚ) (h : rollMax x w t = some r) :
    x t ≤ r := by
  unfold rollMax at h
  by_cases hw : t + 1 < w
  · rw [if_pos hw] at h
    exact absurd h (by simp)
  · rw [if_neg hw] at h
    injection h with h
    subst h
    exact le_foldr_max (x t) _

/-- When the rolling support is defined, so is the rolling resistance (both
use the same window length 20). -/
theorem resistance_some_of_support (low high : ℕ → ℚ) (t : ℕ) (s : ℚ)
    (h : support low t = some s) : ∃ r, resistance high t = some r := by
  unfold support rollMin at h
  unfold resistance rollMax
  by_cases hw : t + 1 < 20
  · rw [if_pos hw] at h
    exact absurd h (by simp)
  · rw [if_neg hw]
    exact ⟨_, rfl⟩

/-- Claim C3: at any qualifying buy bar (with the bar invariant
`close[t] <= high[t]`), the risk:reward computation is total: it never fails,
never returns a negative value, and returns exactly 0 whenever the risk
`entry - stop_loss` is zero or negative. -/
theorem c3_rr_safety (df : Df) (b : ℚ) (t : ℕ)
    (hFB : Final_Buy df.low df.close t = true)
    (hch : df.close t ≤ df.high t) :
    (rrOf (df.close t) (resistance df.high t) (omul (support df.low t) (1 - b))).isSome = true
  ∧ (∀ q, rrOf (df.close t) (resistance df.high t) (omul (support df.low t) (1 - b)) = some q →
      0 ≤ q)
  ∧ (∀ s, support df.low t = some s → df.close t - s * (1 - b) ≤ 0 →
      rrOf (df.close t) (resistance df.high t) (omul (support df.low t) (1 - b)) = some 0) := by
  have hprice : cond_buy_price df.low t = true := by
    have h : (cond_buy_price df.low t && cond_buy_rsi df.close t &&
        cond_buy_macd df.close t) = true := hFB
    simp only [Bool.and_eq_true] at h
    exact h.1.1
  obtain ⟨s, hs, _⟩ := (cond_buy_price_iff df.low t).mp hprice
  obtain ⟨r, hr⟩ := resistance_some_of_support df.low df.high t s hs
  have hclr : df.close t ≤ r := le_trans hch (self_le_rollMax df.high 20 t r hr)
  rw [hs, hr]
  have key : rrOf (df.close t) (some r) (omul (some s) (1 - b)) =
      if 0 < df.close t - s * (1 - b)
      then some ((r - df.close t) / (df.close t - s * (1 - b)))
      else some 0 := by
    unfold rrOf
    by_cases hrisk : 0 < df.close t - s * (1 - b)
    · rw [if_pos hrisk,
        show ogtB (osub (some (df.close t)) (omul (some s) (1 - b))) (some 0) = true by
          simp only [omul, osub, ogtB, Option.map_some']
          exact decide_eq_true hrisk]
      rfl
    · rw [if_neg hrisk,
        show ogtB (osub (some (df.close t)) (omul (some s) (1 - b))) (some 0) = false by
          simp only [omul, osub, ogtB, Option.map_some']
          exact decide_eq_false hrisk]
      rfl
  rw [key]
  by_cases hrisk : 0 < df.close t - s * (1 - b)
  · rw [if_pos hrisk]
    refine ⟨rfl, ?_, ?_⟩
    · intro q hq
      injection hq with hq
      subst hq
      exact div_nonneg (by linarith) (le_of_lt hrisk)
    · intro s2 hs2 hle
      injection hs2 with hs2
      subst hs2
      exact absurd hrisk (by linarith)
  · rw [if_neg hrisk]
    refine ⟨rfl, ?_, ?_⟩
    · intro q hq
      injection hq with hq
      subst hq
      exact le_refl 0
    · intro s2 hs2 hle
      rfl

/-! ## C10: the chart overlay and the dashboard agree -/

/-- Claim C10: on a series with at least one `Final_Buy` bar, the trade-plan
values drawn on the chart (lines 71-75) and those shown in the risk-control
dashboard (lines 125-128) coincide: both select the same latest `Final_Buy`
row and apply the same formulas. -/
theorem c10_chart_dashboard_agree (df : Df) (b : ℚ) (h : has_buy_signal df = true) :
    (entry_price df).isSome = true
  ∧ entry_price df = entryDash df
  ∧ sl_price df b = slDash df b
  ∧ tp_price df = tpDash df
  ∧ (lastBuyRow df).map (fun r => r.idx) = last_buy_idx df := by
  have hfil : (List.range df.n).filter (fun t => Final_Buy df.low df.close t) ≠ [] := by
    unfold has_buy_signal at h
    rw [List.any_eq_true] at h
    obtain ⟨x, hx, hpx⟩ := h
    intro hnil
    exact (List.filter_eq_nil_iff.mp hnil x hx) hpx
  have hidx : (last_buy_idx df).isSome = true := by
    unfold last_buy_idx
    rw [List.getLast?_isSome]
    exact hfil
  refine ⟨?_, ?_, ?_, ?_, ?_⟩
  · unfold entry_price
    cases hu : last_buy_idx df with
    | none => rw [hu] at hidx; exact absurd hidx (by simp)
    | some u => simp
  · cases hu : last_buy_idx df with
    | none => simp [entry_price, entryDash, lastBuyRow_eq, hu]
    | some u => simp [entry_price, entryDash, lastBuyRow_eq, hu, mkRow]
  · cases hu : last_buy_idx df with
    | none => simp [sl_price, slDash, lastBuyRow_eq, hu]
    | some u => simp [sl_price, slDash, lastBuyRow_eq, hu, mkRow]
  · cases hu : last_buy_idx df with
    | none => simp [tp_price, tpDash, lastBuyRow_eq, hu]
    | some u => simp [tp_price, tpDash, lastBuyRow_eq, hu, mkRow]
  · cases hu : last_buy_idx df with
    | none => simp [lastBuyRow_eq, hu]
    | some u => simp [lastBuyRow_eq, hu, mkRow]

/-! ## C4: crossover exclusivity -/

/-- Claim C4 counterexample: on the U-shaped series, bar 32 is not in a run
(the signal line is still NaN there), bars 33 and 34 both satisfy
`macd_line > macd_signal`, so bar 33 begins a maximal run of a 35-bar series —
yet the golden-cross condition is false at bar 33 (its shifted comparison sees
NaN) and at bar 34: the run contains no cross at all, refuting "exactly one
cross per maximal run, at the run's first bar". -/
theorem c4_crossover_counterexample :
    ogtB (macdLine uClose 32) (macdSignal uClose 32) = false
  ∧ ogtB (macdLine uClose 33) (macdSignal uClose 33) = true
  ∧ ogtB (macdLine uClose 34) (macdSignal uClose 34) = true
  ∧ cond_buy_macd uClose 33 = false
  ∧ cond_buy_macd uClose 34 = false :=
  ⟨by decide, by decide, by decide, by decide, by decide⟩

/-- Claim C4 (amended): restricted to runs whose first bar has a defined
previous-bar MACD line and signal, the golden-cross condition fires exactly at
the run's first bar: it is true at a bar entering the run from a defined
non-above bar, and false at every bar whose predecessor already satisfies
`macd_line > macd_signal`.  (The code computes no dead-cross condition, so
there is no symmetric sell half.) -/
theorem c4_crossover_amended (close : ℕ → ℚ) (a : ℕ)
    (h0 : 0 < a)
    (hdl : (macdLine close (a - 1)).isSome = true)
    (hds : (macdSignal close (a - 1)).isSome = true)
    (hnot : ogtB (macdLine close (a - 1)) (macdSignal close (a - 1)) = false)
    (hab : ogtB (macdLine close a) (macdSignal close a) = true) :
    cond_buy_macd close a = true
  ∧ ∀ t, a < t →
      ogtB (macdLine close (t - 1)) (macdSignal close (t - 1)) = true →
      ogtB (macdLine close t) (macdSignal close t) = true →
      cond_buy_macd close t = false := by
  constructor
  · obtain ⟨l, hl⟩ := Option.isSome_iff_exists.mp hdl
    obtain ⟨sg, hsg⟩ := Option.isSome_iff_exists.mp hds
    have ha0 : ¬ a = 0 := by omega
    unfold cond_buy_macd
    rw [hab, Bool.true_and]
    unfold shift1
    rw [if_neg ha0, if_neg ha0, hl, hsg]
    rw [hl, hsg] at hnot
    simp only [ogtB] at hnot
    simp only [oleB]
    exact decide_eq_true (le_of_not_lt (of_decide_eq_false hnot))
  · intro t ht hprev hcur
    obtain ⟨pl, psg, hpl, hpsg, hlt⟩ := (ogtB_eq_true _ _).mp hprev
    have ht0 : ¬ t = 0 := by omega
    unfold cond_buy_macd
    rw [hcur, Bool.true_and]
    unfold shift1
    rw [if_neg ht0, if_neg ht0, hpl, hpsg]
    simp only [oleB]
    exact decide_eq_false (not_le.mpr hlt)

/-- Witness for the amended C4 at the witness series: bar 34 enters the run
from the defined tie `macd_line = macd_signal` at bar 33, and the cross
fires there. -/
theorem c4_crossover_amended_witness : cond_buy_macd wClose 34 = true :=
  (c4_crossover_amended wClose 34 (by decide) (by decide) (by decide)
    (by decide) (by decide)).1

/-! ## C5: there is no Sell signal -/

/-- Claim C5 counterexample: the script assigns no Sell column at all — the
only signal column among the columns it adds is `Final_Buy`; there is no
`Final_Sell` (nor any `Sell_Signal`) to mirror it. -/
theorem c5_no_sell_counterexample :
    "Final_Buy" ∈ dfAddedColumns
  ∧ ¬ ("Final_Sell" ∈ dfAddedColumns)
  ∧ ¬ ("Sell_Signal" ∈ dfAddedColumns) := by decide

/-- Claim C5 (amended): the signal detector produces only the confluence Buy
signal: every column the script adds is `Final_Buy` or one of the nine
non-signal indicator columns; no resistance-proximity, RSI-overbought or MACD
dead-cross sell condition is computed. -/
theorem c5_only_buy_amended :
    "Final_Buy" ∈ dfAddedColumns
  ∧ ∀ c, c ∈ dfAddedColumns → c = "Final_Buy" ∨
      c ∈ ["MACD_12_26_9", "MACDh_12_26_9", "MACDs_12_26_9", "RSI", "Support",
        "Resistance", "Body", "Upper_Wick", "Is_Rejection"] := by decide

/-! ## C8: causality (no look-ahead) -/

/-- The EMA seed only reads the first `L` values. -/
theorem smaFirst_congr (L : ℕ) (x y : ℕ → ℚ) (h : ∀ i, i < L → x i = y i) :
    smaFirst x L = smaFirst y L := by
  unfold smaFirst
  congr 2
  exact List.map_congr_left (fun a ha => h a (List.mem_range.mp ha))

/-- The smoothing recursion only reads values up to its current index. -/
theorem ewmAdjFalse_congr (a : ℚ) (x y : ℕ → ℚ) (s : ℕ) (seed : ℚ) :
    ∀ k, (∀ i, i ≤ s + k → x i = y i) →
      ewmAdjFalse a x s seed k = ewmAdjFalse a y s seed k := by
  intro k
  induction k with
  | zero => intro _; rfl
  | succ k ih =>
    intro h
    unfold ewmAdjFalse
    rw [ih (fun i hi => h i (by omega)), h (s + (k + 1)) (le_refl _)]

/-- The seeded EMA at `t` only reads values up to `t`. -/
theorem emaSma_congr (L : ℕ) (x y : ℕ → ℚ) (t : ℕ) (h : ∀ i, i ≤ t → x i = y i) :
    emaSma L x t = emaSma L y t := by
  unfold emaSma
  by_cases hw : t + 1 < L
  · rw [if_pos hw, if_pos hw]
  · rw [if_neg hw, if_neg hw]
    rw [smaFirst_congr L x y (fun i hi => h i (by omega))]
    congr 1
    exact ewmAdjFalse_congr _ x y (L - 1) _ (t - (L - 1)) (fun i hi => h i (by omega))

/-- The MACD line at `t` only reads closes up to `t`. -/
theorem macdLine_congr (x y : ℕ → ℚ) (t : ℕ) (h : ∀ i, i ≤ t → x i = y i) :
    macdLine x t = macdLine y t := by
  unfold macdLine
  rw [emaSma_congr 12 x y t h, emaSma_congr 26 x y t h]

/-- The re-indexed MACD value at `k` only reads closes up to `k + 25`. -/
theorem macdVal_congr (x y : ℕ → ℚ) (k : ℕ) (h : ∀ i, i ≤ k + 25 → x i = y i) :
    macdVal x k = macdVal y k := by
  unfold macdVal
  rw [smaFirst_congr 12 x y (fun i hi => h i (by omega)),
    smaFirst_congr 26 x y (fun i hi => h i (by omega)),
    ewmAdjFalse_congr _ x y 11 _ (k + 14) (fun i hi => h i (by omega)),
    ewmAdjFalse_congr _ x y 25 _ k (fun i hi => h i (by omega))]

/-- The MACD signal at `t` only reads closes up to `t`. -/
theorem macdSignal_congr (x y : ℕ → ℚ) (t : ℕ) (h : ∀ i, i ≤ t → x i = y i) :
    macdSignal x t = macdSignal y t := by
  unfold macdSignal
  by_cases h25 : t < 25
  · rw [if_pos h25, if_pos h25]
  · rw [if_neg h25, if_neg h25]
    exact emaSma_congr 9 (macdVal x) (macdVal y) (t - 25)
      (fun k hk => macdVal_congr x y k (fun i hi => h i (by omega)))

/-- The weighted numerator at `t` only reads values up to `t`. -/
theorem ewmNum_congr (a : ℚ) (x y : ℕ → ℚ) :
    ∀ t, (∀ i, i ≤ t → x i = y i) → ewmNum a x t = ewmNum a y t := by
  intro t
  induction t with
  | zero => intro _; rfl
  | succ t ih =>
    intro h
    unfold ewmNum
    rw [ih (fun i hi => h i (by omega)), h (t + 1) (le_refl _)]

/-- The RSI at `t` only reads closes up to `t`. -/
theorem rsi_congr (x y : ℕ → ℚ) (t : ℕ) (h : ∀ i, i ≤ t → x i = y i) :
    rsi x t = rsi y t := by
  unfold rsi
  by_cases h14 : t < 14
  · rw [if_pos h14, if_pos h14]
  · rw [if_neg h14, if_neg h14]
    have hp : ewmNum (1 / 14) (posDelta x) t = ewmNum (1 / 14) (posDelta y) t := by
      refine ewmNum_congr _ _ _ t (fun i hi => ?_)
      unfold posDelta
      rw [h i hi, h (i - 1) (le_trans (Nat.sub_le i 1) hi)]
    have hn : ewmNum (1 / 14) (negDelta x) t = ewmNum (1 / 14) (negDelta y) t := by
      refine ewmNum_congr _ _ _ t (fun i hi => ?_)
      unfold negDelta
      rw [h i hi, h (i - 1) (le_trans (Nat.sub_le i 1) hi)]
    rw [hp, hn]

/-- The rolling minimum at `t` only reads values up to `t`. -/
theorem rollMin_congr (x y : ℕ → ℚ) (w t : ℕ) (h : ∀ i, i ≤ t → x i = y i) :
    rollMin x w t = rollMin y w t := by
  unfold rollMin
  by_cases hw : t + 1 < w
  · rw [if_pos hw, if_pos hw]
  · rw [if_neg hw, if_neg hw]
    rw [List.map_congr_left (fun j _ => h (t - j) (Nat.sub_le t j)), h t (le_refl t)]

/-- The rolling maximum at `t` only reads values up to `t`. -/
theorem rollMax_congr (x y : ℕ → ℚ) (w t : ℕ) (h : ∀ i, i ≤ t → x i = y i) :
    rollMax x w t = rollMax y w t := by
  unfold rollMax
  by_cases hw : t + 1 < w
  · rw [if_pos hw, if_pos hw]
  · rw [if_neg hw, if_neg hw]
    rw [List.map_congr_left (fun j _ => h (t - j) (Nat.sub_le t j)), h t (le_refl t)]

/-- Claim C8: causality.  Every derived field at bar `t` — MACD line, signal
and histogram, RSI, support, resistance, body, upper wick, rejection flag and
`Final_Buy` — is a function of the bars at indices up to `t` only: two series
that agree on all bars up to and including `t` produce identical derived
values at `t`, however their later bars differ. -/
theorem c8_causality (o1 g1 l1 c1 o2 g2 l2 c2 : ℕ → ℚ) (t : ℕ)
    (hagree : ∀ i, i ≤ t → o1 i = o2 i ∧ g1 i = g2 i ∧ l1 i = l2 i ∧ c1 i = c2 i) :
    macdLine c1 t = macdLine c2 t
  ∧ macdSignal c1 t = macdSignal c2 t
  ∧ macdHist c1 t = macdHist c2 t
  ∧ rsi c1 t = rsi c2 t
  ∧ support l1 t = support l2 t
  ∧ resistance g1 t = resistance g2 t
  ∧ body o1 c1 t = body o2 c2 t
  ∧ upperWick o1 g1 c1 t = upperWick o2 g2 c2 t
  ∧ isRejection o1 g1 c1 t = isRejection o2 g2 c2 t
  ∧ Final_Buy l1 c1 t = Final_Buy l2 c2 t := by
  have hc : ∀ i, i ≤ t → c1 i = c2 i := fun i hi => (hagree i hi).2.2.2
  have hl : ∀ i, i ≤ t → l1 i = l2 i := fun i hi => (hagree i hi).2.2.1
  have hg : ∀ i, i ≤ t → g1 i = g2 i := fun i hi => (hagree i hi).2.1
  have ho : ∀ i, i ≤ t → o1 i = o2 i := fun i hi => (hagree i hi).1
  have hml : macdLine c1 t = macdLine c2 t := macdLine_congr _ _ t hc
  have hms : macdSignal c1 t = macdSignal c2 t := macdSignal_congr _ _ t hc
  have hrsi : rsi c1 t = rsi c2 t := rsi_congr _ _ t hc
  have hsup : support l1 t = support l2 t := rollMin_congr _ _ 20 t hl
  have hres : resistance g1 t = resistance g2 t := rollMax_congr _ _ 20 t hg
  have hbody : body o1 c1 t = body o2 c2 t := by
    unfold body
    rw [ho t (le_refl t), hc t (le_refl t)]
  have hwick : upperWick o1 g1 c1 t = upperWick o2 g2 c2 t := by
    unfold upperWick
    rw [ho t (le_refl t), hc t (le_refl t), hg t (le_refl t)]
  have hpml : shift1 (macdLine c1) t = shift1 (macdLine c2) t := by
    unfold shift1
    by_cases ht0 : t = 0
    · rw [if_pos ht0, if_pos ht0]
    · rw [if_neg ht0, if_neg ht0]
      exact macdLine_congr _ _ (t - 1) (fun i hi => hc i (le_trans hi (Nat.sub_le t 1)))
  have hpms : shift1 (macdSignal c1) t = shift1 (macdSignal c2) t := by
    unfold shift1
    by_cases ht0 : t = 0
    · rw [if_pos ht0, if_pos ht0]
    · rw [if_neg ht0, if_neg ht0]
      exact macdSignal_congr _ _ (t - 1) (fun i hi => hc i (le_trans hi (Nat.sub_le t 1)))
  have hprsi : shift1 (rsi c1) t = shift1 (rsi c2) t := by
    unfold shift1
    by_cases ht0 : t = 0
    · rw [if_pos ht0, if_pos ht0]
    · rw [if_neg ht0, if_neg ht0]
      exact rsi_congr _ _ (t - 1) (fun i hi => hc i (le_trans hi (Nat.sub_le t 1)))
  refine ⟨hml, hms, ?_, hrsi, hsup, hres, hbody, hwick, ?_, ?_⟩
  · unfold macdHist
    rw [hml, hms]
  · unfold isRejection
    rw [hbody, hwick, hg t (le_refl t), hres]
  · unfold Final_Buy cond_buy_price cond_buy_rsi cond_buy_macd
    rw [hml, hms, hrsi, hsup, hpml, hpms, hprsi, hl t (le_refl t)]

/-- Witness for C8: two concrete series agreeing on bars 0-2 and differing
afterwards yield the same `Final_Buy` value at bar 2. -/
theorem c8_causality_witness : Final_Buy vLow vClose 2 = Final_Buy wLow wClose 2 :=
  (c8_causality vOp vHigh vLow vClose wOp wHigh wLow wClose 2
    (by decide)).2.2.2.2.2.2.2.2.2

/-! ## Witnesses at the concrete 35-bar series -/

/-- Witness for C2: on the witness series the last (indeed only) `Final_Buy`
bar is bar 34, and the risk-control output is the plan computed there. -/
theorem c2_trade_plan_witness :
    riskControl dfW (1 / 50) =
      RiskOut.plan (wClose 34) (resistance wHigh 34)
        (omul (support wLow 34) (1 - 1 / 50))
        (rrOf (wClose 34) (resistance wHigh 34)
          (omul (support wLow 34) (1 - 1 / 50))) :=
  (c2_trade_plan dfW (1 / 50) 34 (by decide)).2.2.2.1

/-- Witness for C3: the risk:reward value at the witness series' buy bar is
defined. -/
theorem c3_rr_safety_witness :
    (rrOf (wClose 34) (resistance wHigh 34)
      (omul (support wLow 34) (1 - 1 / 50))).isSome = true :=
  (c3_rr_safety dfW (1 / 50) 34 (by decide) (by decide)).1

/-- Witness for C9: at bar 5 of the witness series the MACD line is still
undefined, so `Final_Buy` is false there. -/
theorem c9_warmup_no_fire_witness : Final_Buy wLow wClose 5 = false :=
  (c9_warmup_no_fire wLow wClose 5).2.2.2.1 (Or.inl (by decide))

/-- Witness for C10: on the witness series the chart-step entry price equals
the dashboard entry price. -/
theorem c10_chart_dashboard_agree_witness : entry_price dfW = entryDash dfW :=
  (c10_chart_dashboard_agree dfW (1 / 50) (by decide)).2.1
